import Mathlib

set_option maxRecDepth 8000

/-!
Verification of the Knowledge Fusion & Fallback Resolution Engine of the
AGRI-AID backend (FastAPI + service layer).  The Python services are shallowly
embedded as executable Lean definitions:

* `backend/app/db/cache.py`            → `SimpleCache` state-passing model
* `backend/app/services/search_service.py` → `searchRun` and keyword classifiers
* `backend/app/services/price_scraper.py`  → `getPalayData`
* `backend/app/services/weather_service.py`→ `getWeather`
* `backend/app/services/ollama_service.py` → `fusionCore` / `generateResponseWithData`

Network calls are modelled as explicit oracle functions; a fallible call is an
`Except Unit` value; Python `None` is `Option.none`; Python dicts with fixed
key sets are Lean structures.  Time is threaded explicitly (`Int` seconds for
the cache, an abstract formatted string elsewhere).
-/

namespace AgriAid

/-! ## String utilities shared by the services (Python `in`, `.lower()`, `.strip()`, `.split()`) -/

/-- Model of Python pattern matching at the head of a character list:
`startsWithChars pat text` is true when `pat` is an initial segment of `text`. -/
def startsWithChars : List Char → List Char → Bool
  | [], _ => true
  | _ :: _, [] => false
  | a :: as, b :: bs => a == b && startsWithChars as bs

/-- Model of Python substring containment over character lists. -/
def hasSubChars (pat : List Char) : List Char → Bool
  | [] => pat.isEmpty
  | c :: cs => startsWithChars pat (c :: cs) || hasSubChars pat cs

/-- Model of the Python expression `pat in s` for strings. -/
def hasSubstr (pat s : String) : Bool :=
  hasSubChars pat.toList s.toList

/-- Model of Python `s.lower()` (ASCII case folding, as used by the services). -/
def lowerStr (s : String) : String :=
  String.mk (s.toList.map Char.toLower)

/-- Model of Python `s.strip()`: drop leading and trailing whitespace. -/
def stripStr (s : String) : String :=
  String.mk (((s.toList.dropWhile Char.isWhitespace).reverse.dropWhile Char.isWhitespace).reverse)

/-- Auxiliary word splitter for `wordCount` (Python `s.split()` with no
argument: split on whitespace runs, discarding empty chunks). -/
def wordsAux : List Char → List Char → List (List Char)
  | [], acc => if acc.isEmpty then [] else [acc.reverse]
  | c :: cs, acc =>
      if c.isWhitespace then
        if acc.isEmpty then wordsAux cs [] else acc.reverse :: wordsAux cs []
      else wordsAux cs (c :: acc)

/-- Model of Python `len(s.split())`. -/
def wordCount (s : String) : Nat :=
  (wordsAux s.toList []).length

/-- Model of the Python idiom `any(kw in s for kw in kws)`. -/
def containsAny (kws : List String) (s : String) : Bool :=
  kws.any (fun k => hasSubstr k s)

/-- Model of Python truthiness of an optional string (`if x:`):
`None` and the empty string are falsy. -/
def optTruthy : Option String → Bool
  | none => false
  | some s => s != ""

/-- Unwrap an optional string known to be truthy (Python just uses the value). -/
def getOpt : Option String → String
  | none => ""
  | some s => s

/-- Model of Python `s.split(',')[0]`: the prefix of `s` before the first comma
(the whole string when no comma occurs). -/
def firstCommaField (s : String) : String :=
  String.mk (s.toList.takeWhile (fun c => c != ','))

/-- Model of `list(set(...))` on strings: drop duplicate elements.  Python set
iteration order is unspecified, so the model fixes one order (keep the last
occurrence); the claims about the source list only concern membership. -/
def setDedup : List String → List String
  | [] => []
  | x :: xs => if x ∈ xs then setDedup xs else x :: setDedup xs

theorem mem_setDedup (l : List String) (a : String) : a ∈ setDedup l ↔ a ∈ l := by
  induction l with
  | nil => simp [setDedup]
  | cons x xs ih =>
      by_cases hx : x ∈ xs
      · by_cases hax : a = x
        · subst hax; simp [setDedup, hx, ih, hx]
        · simp [setDedup, hx, ih, hax]
      · simp [setDedup, hx, ih, or_comm]

theorem setDedup_nodup (l : List String) : (setDedup l).Nodup := by
  induction l with
  | nil => simp [setDedup]
  | cons x xs ih =>
      by_cases hx : x ∈ xs
      · simpa [setDedup, hx] using ih
      · have hx2 : x ∉ setDedup xs := by
          intro hmem
          exact hx ((mem_setDedup xs x).mp hmem)
        simpa [setDedup, hx, hx2] using ih

theorem setDedup_count_eq_one (l : List String) (a : String) (h : a ∈ l) :
    (setDedup l).count a = 1 := by
  have hmem : a ∈ setDedup l := (mem_setDedup l a).mpr h
  have hnd := setDedup_nodup l
  have hle : (setDedup l).count a ≤ 1 := List.nodup_iff_count_le_one.mp hnd a
  have hpos : 0 < (setDedup l).count a := List.count_pos_iff.mpr hmem
  omega

/-! ## TTL Cache (`backend/app/db/cache.py`, class `SimpleCache`)

The cache stores one file per sanitized key; a file holds the value and its
creation time.  The filesystem is modelled as an association list from file
name to entry, time as `Int` seconds. -/

/-- Model of `SimpleCache._get_cache_file`: every non-alphanumeric character of
the logical key is replaced by an underscore (the `.json` suffix and directory
are common to all keys and omitted). -/
def sanitizeKey (key : String) : String :=
  String.mk (key.toList.map (fun c => if c.isAlphanum then c else '_'))

/-- Model of the on-disk JSON payload: the stored value plus its creation
time. -/
structure CacheEntry (V : Type) where
  value : V
  createdAt : Int
deriving Repr

/-- Model of a `SimpleCache` instance: its configured TTL
(`settings.CACHE_TTL_SECONDS`) and the cache directory contents. -/
structure CacheState (V : Type) where
  ttl : Int
  files : List (String × CacheEntry V)
deriving Repr

/-- Association lookup in the cache directory (Python `os.path.exists` + read). -/
def lookupFile {V : Type} : List (String × CacheEntry V) → String → Option (CacheEntry V)
  | [], _ => none
  | (n, e) :: rest, name => if n = name then some e else lookupFile rest name

/-- Model of `SimpleCache.get`: absent file yields `None`; an entry whose age
strictly exceeds the TTL is removed (lazy expiry) and yields `None`; otherwise
the stored value is returned.  The updated directory is returned alongside. -/
def cacheGet {V : Type} (st : CacheState V) (key : String) (now : Int) :
    Option V × CacheState V :=
  let file := sanitizeKey key
  match lookupFile st.files file with
  | none => (none, st)
  | some e =>
      if now - e.createdAt > st.ttl then
        (none, { st with files := st.files.filter (fun p => p.1 != file) })
      else
        (some e.value, st)

/-- Model of `SimpleCache.set`: write the file for the sanitized key,
overwriting any previous content (last set wins). -/
def cacheSet {V : Type} (st : CacheState V) (key : String) (v : V) (now : Int) :
    CacheState V :=
  { st with files := (sanitizeKey key, ⟨v, now⟩) :: st.files.filter (fun p => p.1 != sanitizeKey key) }

/-- Model of `SimpleCache.delete`: remove the file for the sanitized key. -/
def cacheDelete {V : Type} (st : CacheState V) (key : String) : CacheState V :=
  { st with files := st.files.filter (fun p => p.1 != sanitizeKey key) }

theorem lookupFile_filter_ne {V : Type} (l : List (String × CacheEntry V)) (name : String) :
    lookupFile (l.filter (fun p => p.1 != name)) name = none := by
  induction l with
  | nil => simp [lookupFile]
  | cons p rest ih =>
      by_cases hp : p.1 = name
      · simp [List.filter, hp, ih]
      · have hb : (p.1 != name) = true := by simp [bne_iff_ne, hp]
        simp [List.filter, hb, lookupFile, hp, ih]

/-- C7: after `set k v` at time `t0`, `get k` at `t0` returns `v`; at any time
`t1` strictly more than `ttl` seconds later, `get k` returns `None` and the
stored file for `k` has been removed (lazy expiry). -/
theorem cache_set_get_ttl {V : Type} (st : CacheState V) (k : String) (v : V)
    (t0 t1 : Int) (h0 : 0 ≤ st.ttl) (h1 : t1 - t0 > st.ttl) :
    (cacheGet (cacheSet st k v t0) k t0).1 = some v ∧
    (cacheGet (cacheSet st k v t0) k t1).1 = none ∧
    lookupFile ((cacheGet (cacheSet st k v t0) k t1).2).files (sanitizeKey k) = none := by
  refine ⟨?_, ?_, ?_⟩
  · have h2 : ¬ st.ttl < 0 := by omega
    simp [cacheGet, cacheSet, lookupFile, h2]
  · have h2 : st.ttl < t1 - t0 := by omega
    simp [cacheGet, cacheSet, lookupFile, h2]
  · have h2 : st.ttl < t1 - t0 := by omega
    simp [cacheGet, cacheSet, lookupFile, h2, List.filter_filter,
      Bool.and_self, lookupFile_filter_ne]

/-- Witness for C7 at a concrete input: ttl 3600, set at time 0, expired read
at time 3601. -/
theorem cache_set_get_ttl_witness :
    (cacheGet (cacheSet (⟨3600, []⟩ : CacheState Nat) "k1" 7 0) "k1" 0).1 = some 7 ∧
    (cacheGet (cacheSet (⟨3600, []⟩ : CacheState Nat) "k1" 7 0) "k1" 3601).1 = none ∧
    lookupFile ((cacheGet (cacheSet (⟨3600, []⟩ : CacheState Nat) "k1" 7 0) "k1" 3601).2).files
      (sanitizeKey "k1") = none :=
  cache_set_get_ttl (⟨3600, []⟩ : CacheState Nat) "k1" 7 0 3601
    (by decide) (by decide)

/-- C10: two distinct logical keys whose sanitized forms coincide share one
storage entry: a `set` under `k1` is visible to a `get` under `k2`, and a
`delete` under `k2` removes the entry written under `k1`. -/
theorem cache_sanitize_collision {V : Type} (st : CacheState V) (k1 k2 : String)
    (v : V) (t : Int) (hne : k1 ≠ k2) (hs : sanitizeKey k1 = sanitizeKey k2)
    (h0 : 0 ≤ st.ttl) :
    (cacheGet (cacheSet st k1 v t) k2 t).1 = some v ∧
    lookupFile (cacheDelete (cacheSet st k1 v t) k2).files (sanitizeKey k1) = none := by
  constructor
  · have h2 : ¬ st.ttl < 0 := by omega
    simp [cacheGet, cacheSet, lookupFile, hs, h2]
  · rw [hs]
    simp [cacheDelete, cacheSet, hs, List.filter_filter,
      Bool.and_self, lookupFile_filter_ne]

/-- Witness for C10 at the concrete keys `"a.b"` and `"a_b"`, which both
sanitize to `"a_b"`. -/
theorem cache_sanitize_collision_witness :
    (cacheGet (cacheSet (⟨3600, []⟩ : CacheState Nat) "a.b" 5 0) "a_b" 0).1 = some 5 ∧
    lookupFile (cacheDelete (cacheSet (⟨3600, []⟩ : CacheState Nat) "a.b" 5 0) "a_b").files
      (sanitizeKey "a.b") = none :=
  cache_sanitize_collision (⟨3600, []⟩ : CacheState Nat) "a.b" "a_b" 5 0
    (by decide) (by decide) (by decide)

/-! ## Search Resolver (`backend/app/services/search_service.py`)

The Serper upstream is an oracle `String → Nat → Option (List SerperItem)`:
`none` models a non-2xx response or a transport exception, `some items` a 200
response whose JSON `organic` array holds `items`.  `searchRun` returns the
parsed result together with a flag recording whether the upstream network
request was issued. -/

/-- Model of one element of the Serper `organic` array.  A key the provider
omitted is modelled as the empty string. -/
structure SerperItem where
  title : String
  link : String
  snippet : String
  source : String
  date : String
deriving Repr, DecidableEq

/-- Model of class `SourceLink` (`to_dict` shape). -/
structure SourceLink where
  title : String
  url : String
  snippet : String
  sourceType : String
  retrievedAt : String
deriving Repr, DecidableEq

/-- Model of one entry of the `organic_results` list built by
`SearchService._parse_results`. -/
structure OrganicResult where
  title : String
  url : String
  snippet : String
  source : String
  date : String
deriving Repr, DecidableEq

/-- Model of the dict returned by `SearchService.search`. -/
structure SearchResult where
  query : String
  organicResults : List OrganicResult
  sources : List SourceLink
  timestamp : String
deriving Repr, DecidableEq

/-- Weather keyword list of `_is_weather_query`. -/
def weatherQueryKeywords : List String :=
  ["weather", "forecast", "rain", "sun", "temperature", "typhoon",
   "storm", "climate", "humid", "dry season", "wet season", "cloudy",
   "ulan", "init", "bagyo", "panahon", "pa-asa", "pagasa"]

/-- Model of `_is_weather_query`: keyword containment on the lowercased,
stripped query, plus the short-query check. -/
def isWeatherQuery (query : String) : Bool :=
  let nq := stripStr (lowerStr query)
  if containsAny weatherQueryKeywords nq then true
  else if wordCount nq < 5 && (hasSubstr "weather" nq || hasSubstr "forecast" nq) then true
  else false

/-- Time/date keyword list of `_is_time_or_date_query`. -/
def timeQueryKeywords : List String :=
  ["time", "date", "today", "now", "current time", "what day is it",
   "araw", "oras", "petsa", "ano oras", "anong araw"]

/-- Model of `_is_time_or_date_query`. -/
def isTimeOrDateQuery (query : String) : Bool :=
  let nq := stripStr (lowerStr query)
  containsAny timeQueryKeywords nq && wordCount nq < 7

/-- Model of `SearchService._get_fallback_results`: the uniform empty result
shape used for short-circuits, missing key, non-2xx and exceptions. -/
def fallbackResults (query now : String) : SearchResult :=
  { query := query, organicResults := [], sources := [], timestamp := now }

/-- Model of `SearchService._parse_results` on a 200-response payload. -/
def parseResults (items : List SerperItem) (query now : String) : SearchResult :=
  let top := items.take 5
  { query := query,
    organicResults := top.map (fun it =>
      { title := it.title, url := it.link, snippet := it.snippet,
        source := if it.source = "" then "Serper Search" else it.source,
        date := it.date }),
    sources := top.map (fun it =>
      { title := it.title, url := it.link, snippet := it.snippet,
        sourceType := "web", retrievedAt := now }),
    timestamp := now }

/-- Hardcoded fallback Serper key from `SearchService.__init__`
(`os.getenv("SERPER_API_KEY", ...)`). -/
def serperDefaultKey : String := "19acd2ad97533d1f167c8e7b0acfd4c240fab942"

/-- Model of the query normalization in `SearchService.search`: append
`" Philippines"` unless the query already mentions the country. -/
def localizedQuery (query : String) : String :=
  if !hasSubstr "philippines" (lowerStr query) && !hasSubstr "pilipinas" (lowerStr query) then
    query ++ " Philippines"
  else query

/-- Model of `SearchService.search`.  `envKey` is the `SERPER_API_KEY`
environment variable (`none` when unset, in which case the hardcoded default
key applies).  The second component records whether the upstream request was
issued (true also for non-2xx and transport failures, since the call was
attempted). -/
def searchRun (envKey : Option String) (upstream : String → Nat → Option (List SerperItem))
    (query : String) (numResults : Nat) (force : Bool) (now : String) :
    SearchResult × Bool :=
  if !force && isWeatherQuery query then (fallbackResults query now, false)
  else if !force && isTimeOrDateQuery query then (fallbackResults query now, false)
  else
    let apiKey := envKey.getD serperDefaultKey
    if apiKey = "" then (fallbackResults query now, false)
    else
      match upstream (localizedQuery query) numResults with
      | some items => (parseResults items query now, true)
      | none => (fallbackResults query now, true)

/-- C6: a query matching the weather-keyword set or the time/date-keyword set,
searched with `force = false`, yields the empty result shape with no upstream
network call; with `force = true` the short-circuit is bypassed and the
upstream request is issued (the API key is non-empty: either the environment
sets one or the hardcoded default applies). -/
theorem search_credit_short_circuit (envKey : Option String)
    (upstream : String → Nat → Option (List SerperItem))
    (query : String) (numResults : Nat) (now : String)
    (hmatch : isWeatherQuery query = true ∨ isTimeOrDateQuery query = true)
    (hkey : envKey ≠ some "") :
    searchRun envKey upstream query numResults false now = (fallbackResults query now, false) ∧
    (searchRun envKey upstream query numResults false now).1.organicResults = [] ∧
    (searchRun envKey upstream query numResults false now).1.sources = [] ∧
    (searchRun envKey upstream query numResults true now).2 = true := by
  have hkey2 : (envKey.getD serperDefaultKey) ≠ "" := by
    cases envKey with
    | none => simp [serperDefaultKey]
    | some s =>
        simp only [Option.getD]
        intro h
        exact hkey (by simp [h])
  have hfb : searchRun envKey upstream query numResults false now =
      (fallbackResults query now, false) := by
    rcases hmatch with hw | ht
    · simp [searchRun, hw]
    · by_cases hw : isWeatherQuery query
      · simp [searchRun, hw]
      · simp [searchRun, hw, ht]
  refine ⟨hfb, by rw [hfb]; rfl, by rw [hfb]; rfl, ?_⟩
  simp only [searchRun, Bool.not_true, Bool.false_and, if_neg, if_false]
  simp [hkey2]
  cases upstream (localizedQuery query) numResults <;> simp

/-- Witness for C6 at the spec scenario query. -/
theorem search_credit_short_circuit_witness :
    searchRun none (fun _ _ => some [⟨"t", "http://x", "s", "", ""⟩])
        "What\x27s the weather today?" 5 false "T" =
      (fallbackResults "What\x27s the weather today?" "T", false) ∧
    (searchRun none (fun _ _ => some [⟨"t", "http://x", "s", "", ""⟩])
        "What\x27s the weather today?" 5 true "T").2 = true := by
  have h := search_credit_short_circuit none
    (fun _ _ => some [⟨"t", "http://x", "s", "", ""⟩])
    "What\x27s the weather today?" 5 "T" (Or.inl (by decide)) (by simp)
  exact ⟨h.1, h.2.2.2⟩

/-! ## Price Resolver (`backend/app/services/price_scraper.py`)

`_get_psa_data` and `_get_da_data` each wrap their network call so that any
failure (non-2xx, exception, payload missing the expected numeric field)
degrades to `None`; they are modelled as oracles `String → Nat → Option
PalayRecord` taking the region and year. -/

/-- Model of the inner `data` dict produced by `_format_psa_response` /
`_format_da_response`. -/
structure PalayData where
  averagePrice : Int
  productionVolume : Int
  areaHarvested : Int
  yieldPerHectare : Int
  unit : String
  currency : String
  lastUpdated : String
  sourceUrl : String
  sourceTitle : String
deriving Repr, DecidableEq

/-- Model of a source reference dict (title, url, type). -/
structure SourceRef where
  title : String
  url : String
  type : String
deriving Repr, DecidableEq

/-- Model of the dict returned by the palay tier formatters. -/
structure PalayRecord where
  province : String
  year : Nat
  data : PalayData
  sources : List SourceRef
deriving Repr, DecidableEq

/-- Relabelled `province` field applied to a national fallback payload in
`get_palay_data`. -/
def natFallbackProvince (province : String) : String :=
  "Philippines (National Average - " ++ province ++ " data unavailable)"

/-- National fallback marking applied when the PSA national tier satisfies the
request: relabel `province` and append `" (National Fallback)"` to the source
title. -/
def markPsaNational (province : String) (n : PalayRecord) : PalayRecord :=
  { n with province := natFallbackProvince province,
           data := { n.data with sourceTitle := n.data.sourceTitle ++ " (National Fallback)" } }

/-- National fallback marking applied when the DA national tier satisfies the
request: only the `province` field is relabelled. -/
def markDaNational (province : String) (n : PalayRecord) : PalayRecord :=
  { n with province := natFallbackProvince province }

/-- Model of `PriceScraperService.get_palay_data`: PSA tier for the region,
then DA tier, then (when the region is not already the national one) the same
two tiers for `"Philippines"` with fallback marking; `None` after exhaustion. -/
def getPalayData (psa da : String → Nat → Option PalayRecord)
    (province : String) (year : Nat) : Option PalayRecord :=
  match psa province year with
  | some d => some d
  | none =>
    match da province year with
    | some d => some d
    | none =>
      if lowerStr province ≠ "philippines" then
        match psa "Philippines" year with
        | some n => some (markPsaNational province n)
        | none =>
          match da "Philippines" year with
          | some n => some (markDaNational province n)
          | none => none
      else none

/-- C4: for a non-national region, (1) tier-1 failure with tier-2 success
yields exactly the tier-2 payload with no fallback marking; (2) both region
tiers failing yields the national-region resolution with the fallback marking
applied (PSA national tier also marks the source title); (3) full exhaustion
yields `None`. -/
theorem palay_fallback_ordering (psa da : String → Nat → Option PalayRecord)
    (province : String) (year : Nat)
    (hprov : lowerStr province ≠ "philippines") :
    (∀ d, psa province year = none → da province year = some d →
       getPalayData psa da province year = some d) ∧
    (∀ n, psa province year = none → da province year = none →
       getPalayData psa da "Philippines" year = some n →
       getPalayData psa da province year =
         some (if (psa "Philippines" year).isSome then markPsaNational province n
               else markDaNational province n)) ∧
    (psa province year = none → da province year = none →
       getPalayData psa da "Philippines" year = none →
       getPalayData psa da province year = none) := by
  have hnat : getPalayData psa da "Philippines" year =
      match psa "Philippines" year with
      | some d => some d
      | none => da "Philippines" year := by
    have hph : ¬ (lowerStr "Philippines" ≠ "philippines") := by decide
    cases hpsa : psa "Philippines" year with
    | some d => simp [getPalayData, hpsa]
    | none =>
        cases hda : da "Philippines" year with
        | some d => simp [getPalayData, hpsa, hda]
        | none => simp [getPalayData, hpsa, hda, hph]
  refine ⟨?_, ?_, ?_⟩
  · intro d h1 h2
    simp [getPalayData, h1, h2]
  · intro n h1 h2 hn
    rw [hnat] at hn
    cases hpsa : psa "Philippines" year with
    | some m =>
        rw [hpsa] at hn
        cases hn
        simp [getPalayData, h1, h2, hprov, hpsa]
    | none =>
        rw [hpsa] at hn
        simp only [] at hn
        simp [getPalayData, h1, h2, hprov, hpsa, hn]
  · intro h1 h2 hn
    rw [hnat] at hn
    cases hpsa : psa "Philippines" year with
    | some m => rw [hpsa] at hn; cases hn
    | none =>
        rw [hpsa] at hn
        simp only [] at hn
        simp [getPalayData, h1, h2, hprov, hpsa, hn]

/-- Concrete palay payload used by witnesses. -/
def palaySample : PalayRecord :=
  { province := "Philippines", year := 2024,
    data := { averagePrice := 23, productionVolume := 100, areaHarvested := 50,
              yieldPerHectare := 2, unit := "MT (Metric Tons)", currency := "PHP",
              lastUpdated := "2024-01-01",
              sourceUrl := "https://openstat.psa.gov.ph/PXWeb/pxweb/en/DB/DB__2E__CS/0012E4EVCP0.px",
              sourceTitle := "PSA OpenStat - Palay Production Estimates" },
    sources := [⟨"PSA OpenStat - Palay Production Estimates",
                 "https://openstat.psa.gov.ph/PXWeb/pxweb/en/DB/DB__2E__CS/0012E4EVCP0.px",
                 "official"⟩] }

/-- Witness for C4: region tiers fail for `"Benguet"`, PSA succeeds at the
national tier, and the result is the marked national payload. -/
theorem palay_fallback_ordering_witness :
    getPalayData (fun p _ => if p = "Philippines" then some palaySample else none)
        (fun _ _ => none) "Benguet" 2024 =
      some (markPsaNational "Benguet" palaySample) := by
  have h := (palay_fallback_ordering
    (fun p _ => if p = "Philippines" then some palaySample else none)
    (fun _ _ => none) "Benguet" 2024 (by decide)).2.1 palaySample rfl rfl (by rfl)
  simpa using h

/-! ## Weather Resolver (`backend/app/services/weather_service.py`)

Tier 1 (WeatherAPI.com, `_get_weatherapi`) is an oracle
`String → Option WeatherData`; tier 2 (`_get_pagasa_via_search`) is embedded
over a search function with the signature of `SearchService.search`.  The
heterogeneous weather dicts are one structure whose optional fields model keys
absent from a given variant. -/

/-- Model of the weather payload dicts.  Fields absent from a variant are
`none`. -/
structure WeatherData where
  location : String
  temperature : Option String
  humidity : Option String
  condition : Option String
  windSpeed : Option String
  rainfall : Option String
  note : Option String
  sourceUrl : String
  sourceTitle : String
  lastUpdated : String
  sources : List SourceRef
deriving Repr, DecidableEq

/-- Model of the trace of upstream invocations made by `get_weather`. -/
inductive WeatherCall where
  | weatherapi (loc : String)
  | searchCall (q : String) (num : Nat) (force : Bool)
deriving Repr, DecidableEq

/-- Model of the location normalization at the top of `get_weather`. -/
def locationQuery (location : String) : String :=
  if location != "" && !hasSubstr "Philippines" location then
    location ++ ", Philippines"
  else if location = "" then "Philippines" else location

/-- Search query issued by `_get_pagasa_via_search`. -/
def pagasaQuery (lq : String) : String :=
  "PAGASA weather forecast " ++ lq ++ " today"

/-- Model of the naive condition extraction from the top snippet in
`_get_pagasa_via_search`. -/
def snippetCondition (snippet : String) : String :=
  let s := lowerStr snippet
  if hasSubstr "rain" s || hasSubstr "shower" s then "Rainy/Cloudy"
  else if hasSubstr "sunny" s || hasSubstr "fair" s then "Sunny/Fair"
  else if hasSubstr "storm" s || hasSubstr "typhoon" s then "Stormy"
  else "Unknown"

/-- Model of Python `s[:100]`. -/
def takeStr (n : Nat) (s : String) : String :=
  String.mk (s.toList.take n)

/-- Model of `_get_pagasa_via_search`: search with `force=True`; no organic
results means `None`; otherwise build the payload from the top result. -/
def pagasaViaSearch (searchFn : String → Nat → Bool → SearchResult)
    (lq now : String) : Option WeatherData :=
  let r := searchFn (pagasaQuery lq) 3 true
  match r.organicResults with
  | [] => none
  | top :: _ =>
      some { location := lq,
             temperature := some "See link",
             humidity := some "N/A",
             condition := some (snippetCondition top.snippet),
             windSpeed := some "N/A",
             rainfall := some "Check forecast",
             note := some ("Data retrieved via search: " ++ takeStr 100 top.snippet ++ "..."),
             sourceUrl := top.url,
             sourceTitle := "PAGASA via Search: " ++ top.title,
             lastUpdated := now,
             sources := [⟨top.title, top.url, "official"⟩] }

/-- Model of `_get_default_weather`: the static payload used when every tier
is exhausted. -/
def defaultWeather (loc now : String) : WeatherData :=
  { location := loc,
    temperature := none,
    humidity := none,
    condition := some "Data Unavailable",
    windSpeed := none,
    rainfall := none,
    note := some "Real-time weather services are currently unreachable.",
    sourceUrl := "https://www.pagasa.dost.gov.ph",
    sourceTitle := "PAGASA (Official Website)",
    lastUpdated := now,
    sources := [⟨"PAGASA Official Website", "https://www.pagasa.dost.gov.ph", "official"⟩] }

/-- Model of `WeatherService.get_weather`: tier 1 only when an API key is
configured (`settings.WEATHERAPI_KEY` truthy), then the PAGASA-via-search
tier, then the static default.  The second component is the invocation trace. -/
def getWeather (apiKey : Option String) (tier1 : String → Option WeatherData)
    (searchFn : String → Nat → Bool → SearchResult) (location now : String) :
    WeatherData × List WeatherCall :=
  let lq := locationQuery location
  if optTruthy apiKey then
    match tier1 lq with
    | some w => (w, [WeatherCall.weatherapi lq])
    | none =>
        match pagasaViaSearch searchFn lq now with
        | some w => (w, [WeatherCall.weatherapi lq, WeatherCall.searchCall (pagasaQuery lq) 3 true])
        | none => (defaultWeather lq now,
            [WeatherCall.weatherapi lq, WeatherCall.searchCall (pagasaQuery lq) 3 true])
  else
    match pagasaViaSearch searchFn lq now with
    | some w => (w, [WeatherCall.searchCall (pagasaQuery lq) 3 true])
    | none => (defaultWeather lq now, [WeatherCall.searchCall (pagasaQuery lq) 3 true])

/-- C5: with no API key configured, tier 1 is never attempted, tier 2 (the
search-based scrape) is attempted, and if that search yields no organic
results the resolver returns the static default payload, whose condition is
"Data Unavailable" and whose source URL is the official PAGASA portal. -/
theorem weather_no_key_fallback (apiKey : Option String)
    (tier1 : String → Option WeatherData)
    (searchFn : String → Nat → Bool → SearchResult) (location now : String)
    (hk : optTruthy apiKey = false) :
    (∀ l, WeatherCall.weatherapi l ∉ (getWeather apiKey tier1 searchFn location now).2) ∧
    WeatherCall.searchCall (pagasaQuery (locationQuery location)) 3 true ∈
      (getWeather apiKey tier1 searchFn location now).2 ∧
    ((searchFn (pagasaQuery (locationQuery location)) 3 true).organicResults = [] →
      (getWeather apiKey tier1 searchFn location now).1 =
        defaultWeather (locationQuery location) now) ∧
    (defaultWeather (locationQuery location) now).condition = some "Data Unavailable" ∧
    (defaultWeather (locationQuery location) now).sourceUrl = "https://www.pagasa.dost.gov.ph" := by
  refine ⟨?_, ?_, ?_, rfl, rfl⟩
  · intro l
    cases hp : pagasaViaSearch searchFn (locationQuery location) now with
    | some w => simp [getWeather, hk, hp]
    | none => simp [getWeather, hk, hp]
  · cases hp : pagasaViaSearch searchFn (locationQuery location) now with
    | some w => simp [getWeather, hk, hp]
    | none => simp [getWeather, hk, hp]
  · intro hempty
    have hp : pagasaViaSearch searchFn (locationQuery location) now = none := by
      simp [pagasaViaSearch, hempty]
    simp [getWeather, hk, hp]

/-- Witness for C5: no key, search always empty, location "Baguio". -/
theorem weather_no_key_fallback_witness :
    (∀ l, WeatherCall.weatherapi l ∉
      (getWeather none (fun _ => some (defaultWeather "x" "T"))
        (fun q _ _ => fallbackResults q "T") "Baguio" "T").2) ∧
    (getWeather none (fun _ => some (defaultWeather "x" "T"))
        (fun q _ _ => fallbackResults q "T") "Baguio" "T").1 =
      defaultWeather (locationQuery "Baguio") "T" := by
  have h := weather_no_key_fallback none (fun _ => some (defaultWeather "x" "T"))
    (fun q _ _ => fallbackResults q "T") "Baguio" "T" (by decide)
  exact ⟨h.1, h.2.2.1 (by rfl)⟩

/-! ## Conversation Window (`OllamaService._get_or_create_memory`)

The repository delegates the per-session window to the third-party langchain
class `ConversationBufferWindowMemory`, created with `k=10`; that class is not
part of the repository source, so its windowing behaviour is modelled from the
spec. -/

/-- Window size passed to `ConversationBufferWindowMemory` in
`_get_or_create_memory` (`k=10`). -/
def memoryK : Nat := 10

/-- Last `n` elements of a list. -/
def lastN {α : Type} (n : Nat) (l : List α) : List α :=
  l.drop (l.length - n)

/-- Modelled from the spec: the third-party `ConversationBufferWindowMemory`
(langchain, not part of this repository) holds an ordered sequence of at most
`k` most recent (query, answer) turn pairs per session, the oldest evicted
first. -/
structure ConversationMemory where
  k : Nat
  turns : List (String × String)
deriving Repr, DecidableEq

/-- Modelled from the spec: `memory.save_context` with the query and answer
appends the turn pair and keeps only the `k` most recent pairs. -/
def saveContext (m : ConversationMemory) (q a : String) : ConversationMemory :=
  { m with turns := lastN m.k (m.turns ++ [(q, a)]) }

/-- Fresh memory as created by `_get_or_create_memory`
(`ConversationBufferWindowMemory(k=10, ...)`). -/
def newMemory : ConversationMemory :=
  { k := memoryK, turns := [] }

/-- Append a whole list of turn pairs, one `save_context` per turn. -/
def appendTurns (m : ConversationMemory) (ps : List (String × String)) :
    ConversationMemory :=
  ps.foldl (fun acc p => saveContext acc p.1 p.2) m

theorem lastN_length {α : Type} (n : Nat) (l : List α) :
    (lastN n l).length = min n l.length := by
  simp [lastN]
  omega

theorem lastN_append_absorb {α : Type} (n : Nat) (l r : List α) :
    lastN n (lastN n l ++ r) = lastN n (l ++ r) := by
  by_cases h : l.length ≤ n
  · have h0 : l.length - n = 0 := by omega
    simp [lastN, h0]
  · have hsuf : l.drop (l.length - n) <:+ l := List.drop_suffix _ l
    obtain ⟨pre, hpre⟩ := hsuf
    have hlenl : (lastN n l).length = n := by
      rw [lastN_length]; omega
    have hlenpre : pre.length = l.length - n := by
      have hl := congrArg List.length hpre
      simp only [List.length_append, List.length_drop] at hl
      omega
    have hkey : (pre ++ (lastN n l ++ r)).drop (pre.length + r.length) =
        (lastN n l ++ r).drop r.length := @List.drop_append _ pre (lastN n l ++ r) r.length
    have hsplit : pre ++ (lastN n l ++ r) = l ++ r := by
      rw [← List.append_assoc]
      have : pre ++ lastN n l = l := hpre
      rw [this]
    calc lastN n (lastN n l ++ r)
        = (lastN n l ++ r).drop ((lastN n l).length + r.length - n) := by
            simp [lastN]
      _ = (lastN n l ++ r).drop r.length := by rw [hlenl]; congr 1; omega
      _ = (pre ++ (lastN n l ++ r)).drop (pre.length + r.length) := hkey.symm
      _ = (l ++ r).drop (pre.length + r.length) := by rw [hsplit]
      _ = lastN n (l ++ r) := by
            simp only [lastN, List.length_append]
            congr 1
            omega

theorem appendTurns_turns (ps : List (String × String)) (m : ConversationMemory)
    (h : m.turns.length ≤ m.k) :
    (appendTurns m ps).turns = lastN m.k (m.turns ++ ps) ∧ (appendTurns m ps).k = m.k := by
  induction ps generalizing m with
  | nil =>
      have h0 : m.turns.length - m.k = 0 := by omega
      simp [appendTurns, lastN, h0]
  | cons p rest ih =>
      have hstep : appendTurns m (p :: rest) = appendTurns (saveContext m p.1 p.2) rest := by
        simp [appendTurns, List.foldl]
      have hk : (saveContext m p.1 p.2).k = m.k := rfl
      have hlen : (saveContext m p.1 p.2).turns.length ≤ (saveContext m p.1 p.2).k := by
        simp [saveContext, lastN_length, hk]
      obtain ⟨h1, h2⟩ := ih (saveContext m p.1 p.2) hlen
      rw [hstep]
      refine ⟨?_, by rw [h2, hk]⟩
      rw [h1]
      show lastN m.k (lastN m.k (m.turns ++ [p]) ++ rest) = _
      rw [lastN_append_absorb]
      simp

/-- C8: appending `N > K` turn pairs to a fresh session window leaves exactly
the `K` most recent pairs in their original order (`K = 10` in the code), and
no `save_context` mutation ever leaves more than `k` pairs in the window. -/
theorem conversation_window_bound (ps : List (String × String))
    (h : ps.length > memoryK) :
    (appendTurns newMemory ps).turns.length = memoryK ∧
    (appendTurns newMemory ps).turns = ps.drop (ps.length - memoryK) ∧
    (∀ (m : ConversationMemory) (q a : String),
      (saveContext m q a).turns.length ≤ m.k) := by
  obtain ⟨h1, _⟩ := appendTurns_turns ps newMemory (by simp [newMemory])
  have h2 : (appendTurns newMemory ps).turns = lastN memoryK ps := by
    simpa [newMemory] using h1
  refine ⟨?_, ?_, ?_⟩
  · rw [h2, lastN_length]; omega
  · rw [h2]; rfl
  · intro m q a
    simp [saveContext, lastN_length]

/-- Witness for C8: eleven turns leave the ten most recent. -/
theorem conversation_window_bound_witness :
    (appendTurns newMemory
      [("q1", "a1"), ("q2", "a2"), ("q3", "a3"), ("q4", "a4"), ("q5", "a5"),
       ("q6", "a6"), ("q7", "a7"), ("q8", "a8"), ("q9", "a9"), ("q10", "a10"),
       ("q11", "a11")]).turns =
      [("q2", "a2"), ("q3", "a3"), ("q4", "a4"), ("q5", "a5"),
       ("q6", "a6"), ("q7", "a7"), ("q8", "a8"), ("q9", "a9"), ("q10", "a10"),
       ("q11", "a11")] := by
  have h := (conversation_window_bound
    [("q1", "a1"), ("q2", "a2"), ("q3", "a3"), ("q4", "a4"), ("q5", "a5"),
     ("q6", "a6"), ("q7", "a7"), ("q8", "a8"), ("q9", "a9"), ("q10", "a10"),
     ("q11", "a11")] (by decide)).2.1
  simpa using h

/-! ## Fusion Engine (`OllamaService.generate_response_with_data`)

The resolvers, the knowledge-base lookup and the generative model are oracle
parameters.  The knowledge-base lookup (`_get_knowledge_base_info`) and each
resolver may raise (`Except Unit`); the generative-model call is an excluded
collaborator modelled as a total function.  `fusionCore` is the body of the
method after the knowledge-base lookup succeeded; `generateResponseWithData`
adds the only non-absorbed failure point.  A trace records every resolver
invocation. -/

/-- Oracles standing for the collaborators of `generate_response_with_data`:
`kb` is `_get_knowledge_base_info`, `searchFn` is `search_service.search`,
`palay` is `psa_scraper.get_palay_data`, `weather` is
`weather_service.get_weather`, `llm` is `self.llm.invoke`. -/
structure FusionOracles where
  kb : String → Option String → Except Unit (String × List String)
  searchFn : String → Nat → Bool → Except Unit SearchResult
  palay : String → Nat → Except Unit (Option PalayRecord)
  weather : String → Except Unit WeatherData
  llm : String → String

/-- Trace of resolver invocations made during one fusion call. -/
inductive CallEvent where
  | searchCall (q : String) (num : Nat) (force : Bool)
  | palayCall (province : String) (year : Nat)
  | weatherCall (loc : String)
deriving Repr, DecidableEq

/-- Price keyword list of `generate_response_with_data` (is_price_query). -/
def priceKeywords : List String :=
  ["price", "presyo", "cost", "magkano", "srp", "market value", "benta", "halaga"]

/-- Keyword list `force_web_search_keywords` (people queries). -/
def forceWebSearchKeywords : List String :=
  ["who is", "sino ang", "sino", "head of", "director of",
   "official", "person", "secretary", "administrator", "contact",
   "phone", "address", "hotline", "website", "email"]

/-- Keyword list `regular_web_search_keywords`. -/
def regularWebSearchKeywords : List String :=
  ["current", "latest", "today", "now", "recent",
   "news", "update", "announcement", "alert"]

/-- Keyword list guarding the PSA (Price Resolver) block. -/
def psaTriggerKeywords : List String :=
  ["price", "presyo", "production", "area", "yield", "palay", "rice"]

/-- Keyword list guarding the weather block. -/
def weatherTriggerKeywords : List String :=
  ["weather", "panahon", "forecast", "ulan", "climate"]

/-- Output of one context block: its context text, the source URLs it
contributes, and the resolver calls it made. -/
structure BlockOut where
  ctx : String
  urls : List String
  calls : List CallEvent

/-- Search query built for price queries (PH-forced context). -/
def priceSearchQuery (message : String) (location : Option String) : String :=
  "latest price of " ++ message ++ " in " ++
    (if optTruthy location then getOpt location else "Philippines") ++
    " Department of Agriculture Philippines"

/-- Numbered formatting of search results with a `Source:` line (price and
people branches, top 3 results). -/
def fmtResultsFull : Nat → List OrganicResult → String × List String
  | _, [] => ("", [])
  | i, r :: rest =>
      let t := fmtResultsFull (i + 1) rest
      (toString i ++ ". " ++ r.title ++ "\n   " ++ r.snippet ++ "\n   Source: " ++ r.url ++
        "\n\n" ++ t.1,
       r.url :: t.2)

/-- Numbered formatting without a `Source:` line (standard branch, top 2). -/
def fmtResultsBrief : Nat → List OrganicResult → String × List String
  | _, [] => ("", [])
  | i, r :: rest =>
      let t := fmtResultsBrief (i + 1) rest
      (toString i ++ ". " ++ r.title ++ "\n   " ++ r.snippet ++ "\n" ++ t.1,
       r.url :: t.2)

/-- Model of the `===== WEB SEARCH =====` section: price branch (forced
search), people branch, or standard branch; any exception or empty result set
contributes nothing. -/
def webBlock (o : FusionOracles) (message : String) (location : Option String)
    (messageLower : String) : BlockOut :=
  let isPriceQuery := containsAny priceKeywords messageLower
  let isAboutPeople := containsAny forceWebSearchKeywords messageLower
  let needsWebSearch := isPriceQuery || isAboutPeople ||
    containsAny regularWebSearchKeywords messageLower
  if needsWebSearch then
    if isPriceQuery then
      let sq := priceSearchQuery message location
      match o.searchFn sq 5 true with
      | Except.ok r =>
          if r.organicResults.isEmpty then ⟨"", [], [CallEvent.searchCall sq 5 true]⟩
          else
            let f := fmtResultsFull 1 (r.organicResults.take 3)
            ⟨"\n=== LATEST MARKET PRICES (WEB VERIFIED) ===\n" ++ f.1, f.2,
             [CallEvent.searchCall sq 5 true]⟩
      | Except.error _ => ⟨"", [], [CallEvent.searchCall sq 5 true]⟩
    else if isAboutPeople then
      match o.searchFn message 5 false with
      | Except.ok r =>
          if r.organicResults.isEmpty then ⟨"", [], [CallEvent.searchCall message 5 false]⟩
          else
            let f := fmtResultsFull 1 (r.organicResults.take 3)
            ⟨"\n=== VERIFICATION FROM WEB ===\n" ++ f.1, f.2,
             [CallEvent.searchCall message 5 false]⟩
      | Except.error _ => ⟨"", [], [CallEvent.searchCall message 5 false]⟩
    else
      match o.searchFn message 3 false with
      | Except.ok r =>
          if r.organicResults.isEmpty then ⟨"", [], [CallEvent.searchCall message 3 false]⟩
          else
            let f := fmtResultsBrief 1 (r.organicResults.take 2)
            ⟨"\n=== LATEST INFORMATION ===\n" ++ f.1, f.2,
             [CallEvent.searchCall message 3 false]⟩
      | Except.error _ => ⟨"", [], [CallEvent.searchCall message 3 false]⟩
  else ⟨"", [], []⟩

/-- Brace-free rendering standing for `json.dumps(psa_data, indent=2)`; it
lists every field, so substring checks against the payload (the
`"National Fallback"` probe) behave as on the Python dict dump. -/
def palayToStr (d : PalayRecord) : String :=
  "province: " ++ d.province ++
  "\nyear: " ++ toString d.year ++
  "\naverage_price: " ++ toString d.data.averagePrice ++
  "\nproduction_volume: " ++ toString d.data.productionVolume ++
  "\narea_harvested: " ++ toString d.data.areaHarvested ++
  "\nyield_per_hectare: " ++ toString d.data.yieldPerHectare ++
  "\nunit: " ++ d.data.unit ++
  "\ncurrency: " ++ d.data.currency ++
  "\nlast_updated: " ++ d.data.lastUpdated ++
  "\nsource_url: " ++ d.data.sourceUrl ++
  "\nsource_title: " ++ d.data.sourceTitle

/-- Model of the `===== PSA DATA =====` block. -/
def psaBlock (o : FusionOracles) (messageLower : String) (location : Option String) :
    BlockOut :=
  if containsAny psaTriggerKeywords messageLower then
    let province := if optTruthy location then stripStr (firstCommaField (getOpt location))
      else "Pangasinan"
    match o.palay province 2024 with
    | Except.ok (some d) =>
        let base := "\n=== OFFICIAL PSA BENCHMARK DATA (2024) ===\n" ++ palayToStr d
        let ctx := if hasSubstr "National Fallback" (palayToStr d) then
            base ++ "\nNOTE: Local data unavailable. Showing National Average."
          else base
        let urls := if d.data.sourceUrl != "" then [d.data.sourceUrl]
          else ["https://openstat.psa.gov.ph/PXWeb/pxweb/en/DB/DB__2M__NWSNEW/?tablelist=true"]
        ⟨ctx, urls, [CallEvent.palayCall province 2024]⟩
    | Except.ok none => ⟨"", [], [CallEvent.palayCall province 2024]⟩
    | Except.error _ => ⟨"", [], [CallEvent.palayCall province 2024]⟩
  else ⟨"", [], []⟩

/-- Rendering of an optional dict field (`null` when absent). -/
def optFieldStr : Option String → String
  | none => "null"
  | some s => s

/-- Brace-free rendering standing for `json.dumps(weather_data, indent=2)`. -/
def weatherToStr (w : WeatherData) : String :=
  "location: " ++ w.location ++
  "\ntemperature: " ++ optFieldStr w.temperature ++
  "\nhumidity: " ++ optFieldStr w.humidity ++
  "\ncondition: " ++ optFieldStr w.condition ++
  "\nwind_speed: " ++ optFieldStr w.windSpeed ++
  "\nrainfall: " ++ optFieldStr w.rainfall ++
  "\nnote: " ++ optFieldStr w.note ++
  "\nsource_url: " ++ w.sourceUrl ++
  "\nsource_title: " ++ w.sourceTitle ++
  "\nlast_updated: " ++ w.lastUpdated

/-- Model of the `===== WEATHER DATA =====` block. -/
def weatherBlock (o : FusionOracles) (messageLower : String) (location : Option String) :
    BlockOut :=
  if containsAny weatherTriggerKeywords messageLower then
    let lq := if optTruthy location then getOpt location else "Philippines"
    match o.weather lq with
    | Except.ok w =>
        ⟨"\n=== WEATHER DATA ===\n" ++ weatherToStr w,
         if w.sourceUrl != "" then [w.sourceUrl]
           else ["https://bagong.pagasa.dost.gov.ph/weather"],
         [CallEvent.weatherCall lq]⟩
    | Except.error _ => ⟨"", [], [CallEvent.weatherCall lq]⟩
  else ⟨"", [], []⟩

/-- Per-process session store `self.conversations` keyed by conversation id. -/
abbrev MemStore := List (String × ConversationMemory)

/-- Association lookup in the session store. -/
def lookupMem : MemStore → String → Option ConversationMemory
  | [], _ => none
  | (i, m) :: rest, cid => if i = cid then some m else lookupMem rest cid

/-- Model of `_get_or_create_memory`: reuse the session window or create a
fresh one with `k = 10`. -/
def getOrCreateMemory (store : MemStore) (cid : String) :
    ConversationMemory × MemStore :=
  match lookupMem store cid with
  | some m => (m, store)
  | none => (newMemory, (cid, newMemory) :: store)

/-- Replace a session window in the store. -/
def updateMem : MemStore → String → ConversationMemory → MemStore
  | [], cid, m => [(cid, m)]
  | (i, m0) :: rest, cid, m =>
      if i = cid then (i, m) :: rest else (i, m0) :: updateMem rest cid m

/-- Model of `_get_or_create_memory` followed by `save_context`. -/
def saveToStore (store : MemStore) (cid q a : String) : MemStore :=
  let r := getOrCreateMemory store cid
  updateMem r.2 cid (saveContext r.1 q a)

/-- Transcript lines of the window (`Human:` / `Assistant:` pairs). -/
def turnsText : List (String × String) → String
  | [] => ""
  | (q, a) :: rest => "Human: " ++ q ++ "\nAssistant: " ++ a ++ "\n" ++ turnsText rest

/-- Model of the `chat_history_text` assembly for a non-empty window. -/
def chatHistoryOf (m : ConversationMemory) : String :=
  if m.turns.isEmpty then ""
  else "\n=== CONVERSATION HISTORY ===\n" ++ turnsText m.turns ++ "\n"

/-- History retrieval step: text plus the (possibly extended) session store. -/
def historyBlock (store : MemStore) (cid : Option String) : String × MemStore :=
  if optTruthy cid then
    let r := getOrCreateMemory store (getOpt cid)
    (chatHistoryOf r.1, r.2)
  else ("", store)

/-- Phrases removed from the generated answer. -/
def unwantedPhrases : List String :=
  ["Alternatively", "Let me know", "how else can", "Source: None", "Note:", "However,"]

/-- Auxiliary splitter for `response.split("\n")`. -/
def splitLinesAux : List Char → List Char → List String
  | [], acc => [String.mk acc.reverse]
  | c :: cs, acc =>
      if c = '\n' then String.mk acc.reverse :: splitLinesAux cs []
      else splitLinesAux cs (c :: acc)

/-- Model of Python `s.split("\n")` (keeps empty chunks). -/
def splitLines (s : String) : List String :=
  splitLinesAux s.toList []

/-- Model of the response cleaning: drop lines containing an unwanted phrase,
re-join, strip. -/
def cleanResponse (r : String) : String :=
  stripStr (String.intercalate "\n"
    ((splitLines r).filter (fun line => !(unwantedPhrases.any (fun ph => hasSubstr ph line)))))

/-- Model of class `ResponseWithSources`. -/
structure ResponseWithSources where
  text : String
  sources : List String
deriving Repr, DecidableEq

/-- Diagnostic view of one fusion run: the intermediate context strings, the
assembled system prompt and the pre-deduplication source list. -/
structure RunInfo where
  chatHistoryText : String
  knowledgeContext : String
  webContext : String
  psaContext : String
  weatherContext : String
  systemPrompt : String
  rawSources : List String

/-- Result of one successful fusion call. -/
structure FusionRun where
  response : ResponseWithSources
  store : MemStore
  trace : List CallEvent
  info : RunInfo

/-- Static prompt text before the interpolated current date. -/
def promptHead : String :=
  "You are AGRI-AID, a FACTUAL Philippine agriculture expert specializing in the CORDILLERA ADMINISTRATIVE REGION (CAR).\nCURRENT DATE: "

/-- Static prompt text between the date and the interpolated
`chat_history_text`. -/
def promptRules : String :=
  "\n\nGEOGRAPHIC SCOPE: Your expertise covers the Cordillera Administrative Region (CAR), which includes:\n- Abra, Apayao, Benguet, Ifugao, Kalinga, and Mountain Province\n- Focus on highland/mountainous agriculture, rice terraces, vegetable farming\n- When data is unavailable for CAR, you may reference national data but clearly state this\n\nSTRICT RULES (PHILIPPINES - CAR FOCUS):\n1. Answer ONLY questions about Philippine agriculture, prioritizing CAR context. Refuse others.\n2. **PRICE QUERIES:** - You MUST provide a clear summary sentence FIRST. Example: \"The current retail price of Red Onion in Benguet ranges from ₱120 to ₱140 per kilo as of [Date].\"\n   - ONLY use data from the provided context (DA, PSA, or Philippine news search results). \n   - Do NOT use international averages or generic data.\n   - If CAR-specific data is missing but National/Metro Manila data is available, explicitly state: \"Specific price data for CAR was unavailable. The national average is [Price].\"\n   - Do NOT just output a list of links. Write a helpful response.\n3. **SOURCES:** Use the knowledge base first, then the web search results. \n4. **OFFICIALS:** Only use names/titles listed in the verified knowledge base.\n5. **REGIONAL CONTEXT:** Tailor responses to CAR\x27s highland agriculture, cool climate crops, and unique farming practices.\n\n"

/-- Prompt preamble: everything of the f-string before `chat_history_text`. -/
def promptPreamble (now : String) : String :=
  promptHead ++ now ++ promptRules

/-- Separator introducing the knowledge-base section. -/
def kbHeader : String := "\n\nKNOWLEDGE BASE:\n"

/-- Static prompt text after the interpolated `weather_context`. -/
def promptTail : String :=
  "\n\nRESPONSE FORMAT:\n- Direct and confident answer in English, with CAR context when relevant.\n- For prices: Specific range in PHP, Location (CAR province), and Date.\n- No fluff or disclaimers like \"As an AI...\".\n"

/-- Body of `generate_response_with_data` after the knowledge-base lookup
returned `kr = (knowledge_context, kb_sources)`: web search, PSA, weather
(each absorbing its own failures), prompt assembly, model call, memory save,
response cleaning and source deduplication. -/
def fusionCore (o : FusionOracles) (store : MemStore) (message : String)
    (location conversationId : Option String) (now : String)
    (kr : String × List String) : FusionRun :=
  let messageLower := lowerStr message
  let hist := historyBlock store conversationId
  let w := webBlock o message location messageLower
  let p := psaBlock o messageLower location
  let wx := weatherBlock o messageLower location
  let rawSources := kr.2 ++ w.urls ++ p.urls ++ wx.urls
  let systemPromptBase := promptPreamble now ++ hist.1 ++ kbHeader ++ kr.1 ++
    "\n\n" ++ w.ctx ++ "\n\n" ++ p.ctx ++ "\n\n" ++ wx.ctx ++ promptTail
  let systemPrompt := if optTruthy location then
      systemPromptBase ++ "\n\nUser Location: " ++ getOpt location
    else systemPromptBase
  let answer := o.llm (systemPrompt ++ "\n\nQuestion: " ++ message)
  let store2 := if optTruthy conversationId then
      saveToStore hist.2 (getOpt conversationId) message answer
    else hist.2
  { response := { text := cleanResponse answer,
                  sources := setDedup (rawSources.filter (fun s => s != "")) },
    store := store2,
    trace := w.calls ++ p.calls ++ wx.calls,
    info := { chatHistoryText := hist.1, knowledgeContext := kr.1, webContext := w.ctx,
              psaContext := p.ctx, weatherContext := wx.ctx, systemPrompt := systemPrompt,
              rawSources := rawSources } }

/-- Model of `generate_response_with_data`: the knowledge-base lookup is the
single non-absorbed failure point (the outer `except` logs and re-raises);
every network-sourced failure is absorbed inside `fusionCore`. -/
def generateResponseWithData (o : FusionOracles) (store : MemStore) (message : String)
    (location conversationId : Option String) (now : String) : Except Unit FusionRun :=
  (o.kb message location).map (fusionCore o store message location conversationId now)

/-- C1: fusion absorbs resolver failures — for every oracle behaviour it
returns `ok` whenever the knowledge-base lookup returns `ok`, the failing
resolver contributing an empty context section — and it propagates an error
to its caller exactly when the knowledge-base lookup raises. -/
theorem fusion_error_isolation (o : FusionOracles) (store : MemStore)
    (message : String) (location conversationId : Option String) (now : String) :
    (∀ e, o.kb message location = Except.error e →
       generateResponseWithData o store message location conversationId now =
         Except.error e) ∧
    (∀ kr, o.kb message location = Except.ok kr →
       generateResponseWithData o store message location conversationId now =
         Except.ok (fusionCore o store message location conversationId now kr)) ∧
    (∀ kr, (∀ q n f, o.searchFn q n f = Except.error ()) →
       (fusionCore o store message location conversationId now kr).info.webContext = "") ∧
    (∀ kr, (∀ pr y, o.palay pr y = Except.error ()) →
       (fusionCore o store message location conversationId now kr).info.psaContext = "") ∧
    (∀ kr, (∀ l, o.weather l = Except.error ()) →
       (fusionCore o store message location conversationId now kr).info.weatherContext = "") := by
  refine ⟨?_, ?_, ?_, ?_, ?_⟩
  · intro e he
    simp [generateResponseWithData, he, Except.map]
  · intro kr hk
    simp [generateResponseWithData, hk, Except.map]
  · intro kr hs
    show (webBlock o message location (lowerStr message)).ctx = ""
    unfold webBlock
    simp only [hs]
    split
    · split
      · rfl
      · split
        · rfl
        · rfl
    · rfl
  · intro kr hp
    show (psaBlock o (lowerStr message) location).ctx = ""
    unfold psaBlock
    simp only [hp]
    split
    · rfl
    · rfl
  · intro kr hw
    show (weatherBlock o (lowerStr message) location).ctx = ""
    unfold weatherBlock
    simp only [hw]
    split
    · rfl
    · rfl

/-- Oracles whose every resolver and knowledge-base lookup raises. -/
def failingOracles : FusionOracles :=
  { kb := fun _ _ => Except.error (),
    searchFn := fun _ _ _ => Except.error (),
    palay := fun _ _ => Except.error (),
    weather := fun _ => Except.error (),
    llm := fun _ => "ANSWER" }

/-- Oracles whose knowledge-base lookup succeeds while every resolver raises. -/
def okKbOracles : FusionOracles :=
  { failingOracles with kb := fun _ _ => Except.ok ("KB", ["http://kb"]) }

/-- Witness for C1: with a raising knowledge base fusion raises; with a
succeeding knowledge base and all resolvers raising it still succeeds, the
failed search contributing an empty web section. -/
theorem fusion_error_isolation_witness :
    generateResponseWithData failingOracles [] "price of rice" none none "T" =
      Except.error () ∧
    generateResponseWithData okKbOracles [] "price of rice" none none "T" =
      Except.ok (fusionCore okKbOracles [] "price of rice" none none "T"
        ("KB", ["http://kb"])) ∧
    (fusionCore okKbOracles [] "price of rice" none none "T"
      ("KB", ["http://kb"])).info.webContext = "" := by
  refine ⟨?_, ?_, ?_⟩
  · exact (fusion_error_isolation failingOracles [] "price of rice" none none "T").1 () rfl
  · exact (fusion_error_isolation okKbOracles [] "price of rice" none none "T").2.1
      ("KB", ["http://kb"]) rfl
  · exact (fusion_error_isolation okKbOracles [] "price of rice" none none "T").2.2.1
      ("KB", ["http://kb"]) (fun _ _ _ => rfl)

/-- C2: the final source list of every fusion call has no duplicate URL, no
empty/absent URL, contains every non-empty collected URL exactly once, and
nothing else. -/
theorem fusion_sources_dedup (o : FusionOracles) (store : MemStore)
    (message : String) (location conversationId : Option String) (now : String)
    (kr : String × List String) :
    (fusionCore o store message location conversationId now kr).response.sources.Nodup ∧
    "" ∉ (fusionCore o store message location conversationId now kr).response.sources ∧
    (∀ u, u ∈ (fusionCore o store message location conversationId now kr).info.rawSources →
       u ≠ "" →
       (fusionCore o store message location conversationId now kr).response.sources.count u
         = 1) ∧
    (∀ u, u ∈ (fusionCore o store message location conversationId now kr).response.sources →
       u ∈ (fusionCore o store message location conversationId now kr).info.rawSources) := by
  have hfield :
      (fusionCore o store message location conversationId now kr).response.sources =
      setDedup (((fusionCore o store message location conversationId now kr).info.rawSources).filter
        (fun s => s != "")) := rfl
  rw [hfield]
  set l := (fusionCore o store message location conversationId now kr).info.rawSources with hl
  refine ⟨setDedup_nodup _, ?_, ?_, ?_⟩
  · intro hmem
    rw [mem_setDedup] at hmem
    simp [List.mem_filter] at hmem
  · intro u hu hne
    refine setDedup_count_eq_one _ u ?_
    rw [List.mem_filter]
    exact ⟨hu, by simpa [bne_iff_ne] using hne⟩
  · intro u hu
    rw [mem_setDedup, List.mem_filter] at hu
    exact hu.1

/-- Witness for C2: a duplicated URL and an empty URL among the collected
sources yield exactly one copy of the URL. -/
theorem fusion_sources_dedup_witness :
    (fusionCore okKbOracles [] "hello there" none none "T"
      ("KB", ["http://a", "http://a", ""])).response.sources.count "http://a" = 1 :=
  (fusion_sources_dedup okKbOracles [] "hello there" none none "T"
    ("KB", ["http://a", "http://a", ""])).2.2.1 "http://a" (by decide) (by decide)

/-- Tail-recursive scan for the first occurrence of `pat`, offset by `i`. -/
def firstIdxAux (pat : List Char) : Nat → List Char → Option Nat
  | i, [] => if pat.isEmpty then some i else none
  | i, c :: cs =>
      if startsWithChars pat (c :: cs) then some i
      else firstIdxAux pat (i + 1) cs

/-- Index of the first occurrence of `pat` in a character list. -/
def firstIdx (pat l : List Char) : Option Nat :=
  firstIdxAux pat 0 l

/-- Index of the first occurrence of `marker` in `p` (strings). -/
def sectionIdx (marker p : String) : Option Nat :=
  firstIdx marker.toList p.toList

/-- Header marking the knowledge-base section of the system prompt. -/
def kbMarker : String := "KNOWLEDGE BASE:"

/-- Header emitted at the head of the price-branch web search section. -/
def webMarker : String := "=== LATEST MARKET PRICES (WEB VERIFIED) ==="

/-- Header emitted at the head of the PSA (price resolver) section. -/
def psaMarker : String := "=== OFFICIAL PSA BENCHMARK DATA (2024) ==="

/-- Header emitted at the head of the weather section. -/
def weatherMarker : String := "=== WEATHER DATA ==="

/-- Order asserted by the spec: knowledge base, then price, then weather,
then search, each section present. -/
def specContextOrder (p : String) : Bool :=
  match sectionIdx kbMarker p, sectionIdx psaMarker p,
        sectionIdx weatherMarker p, sectionIdx webMarker p with
  | some i, some j, some k, some l => decide (i < j) && decide (j < k) && decide (k < l)
  | _, _, _, _ => false

/-- Order the code produces: knowledge base, then search, then price, then
weather, each section present. -/
def codeContextOrder (p : String) : Bool :=
  match sectionIdx kbMarker p, sectionIdx webMarker p,
        sectionIdx psaMarker p, sectionIdx weatherMarker p with
  | some i, some j, some k, some l => decide (i < j) && decide (j < k) && decide (k < l)
  | _, _, _, _ => false

/-- Oracles for a run in which every category contributes a section. -/
def allHitOracles : FusionOracles :=
  { kb := fun _ _ => Except.ok ("KBTEXT", []),
    searchFn := fun q _ _ => Except.ok
      { query := q,
        organicResults := [⟨"T1", "http://web1", "S1", "W", ""⟩],
        sources := [], timestamp := "T" },
    palay := fun _ _ => Except.ok (some palaySample),
    weather := fun _ => Except.ok (defaultWeather "Benguet" "T"),
    llm := fun _ => "ANSWER" }

/-- System prompt of a concrete fusion run whose query triggers the price,
weather and web-search categories at once. -/
def allHitPrompt : String :=
  (fusionCore allHitOracles [] "price of rice and weather today" (some "Benguet")
    none "D" ("KBTEXT", [])).info.systemPrompt

/-- C3 counterexample: in a run where all four sections are present, the
categories are NOT concatenated in the order knowledge base, price, weather,
search asserted by the spec; the produced order is knowledge base, search,
price, weather. -/
theorem fusion_context_order_counterexample :
    specContextOrder allHitPrompt = false ∧
    codeContextOrder allHitPrompt = true ∧
    (sectionIdx kbMarker allHitPrompt).isSome = true ∧
    (sectionIdx webMarker allHitPrompt).isSome = true ∧
    (sectionIdx psaMarker allHitPrompt).isSome = true ∧
    (sectionIdx weatherMarker allHitPrompt).isSome = true := by
  decide

/-- C3 amended: the order in which category texts are concatenated into the
system prompt is fixed — knowledge base first, then web search, then price,
then weather — for every input and oracle behaviour (completion order cannot
influence it), so the assembled prompt is deterministic for a fixed input. -/
theorem fusion_context_order (o : FusionOracles) (store : MemStore)
    (message : String) (location conversationId : Option String) (now : String)
    (kr : String × List String) :
    (fusionCore o store message location conversationId now kr).info.systemPrompt =
      (if optTruthy location then
        promptPreamble now ++
          (fusionCore o store message location conversationId now kr).info.chatHistoryText ++
          kbHeader ++
          (fusionCore o store message location conversationId now kr).info.knowledgeContext ++
          "\n\n" ++
          (fusionCore o store message location conversationId now kr).info.webContext ++
          "\n\n" ++
          (fusionCore o store message location conversationId now kr).info.psaContext ++
          "\n\n" ++
          (fusionCore o store message location conversationId now kr).info.weatherContext ++
          promptTail ++ "\n\nUser Location: " ++ getOpt location
      else
        promptPreamble now ++
          (fusionCore o store message location conversationId now kr).info.chatHistoryText ++
          kbHeader ++
          (fusionCore o store message location conversationId now kr).info.knowledgeContext ++
          "\n\n" ++
          (fusionCore o store message location conversationId now kr).info.webContext ++
          "\n\n" ++
          (fusionCore o store message location conversationId now kr).info.psaContext ++
          "\n\n" ++
          (fusionCore o store message location conversationId now kr).info.weatherContext ++
          promptTail) := by
  by_cases hloc : optTruthy location
  · simp only [fusionCore, hloc, if_true]
  · simp only [fusionCore, hloc, if_false]

/-- Recognizer for Price Resolver invocations in a fusion trace. -/
def isPalayCall : CallEvent → Bool
  | CallEvent.palayCall _ _ => true
  | _ => false

theorem webBlock_no_palay (o : FusionOracles) (message : String)
    (location : Option String) (messageLower : String) :
    (webBlock o message location messageLower).calls.any isPalayCall = false := by
  simp only [webBlock]
  repeat' split
  all_goals simp [isPalayCall]

theorem weatherBlock_no_palay (o : FusionOracles) (messageLower : String)
    (location : Option String) :
    (weatherBlock o messageLower location).calls.any isPalayCall = false := by
  simp only [weatherBlock]
  repeat' split
  all_goals simp [isPalayCall]

theorem psaBlock_palay_iff (o : FusionOracles) (messageLower : String)
    (location : Option String) :
    (psaBlock o messageLower location).calls.any isPalayCall =
      containsAny psaTriggerKeywords messageLower := by
  simp only [psaBlock]
  by_cases h : containsAny psaTriggerKeywords messageLower
  · simp only [h, if_true]
    split <;> simp [isPalayCall]
  · have h2 : containsAny psaTriggerKeywords messageLower = false := by
      simpa using h
    simp [h2, isPalayCall]

/-- C9 (amended): every price query makes fusion invoke the Search Resolver
with `force=True`; the Price Resolver, however, is invoked exactly when the
query contains one of the PSA trigger keywords (price, presyo, production,
area, yield, palay, rice), which is a strictly different condition from being
a price query. -/
theorem price_query_forces_search (o : FusionOracles) (store : MemStore)
    (message : String) (location conversationId : Option String) (now : String)
    (kr : String × List String)
    (hp : containsAny priceKeywords (lowerStr message) = true) :
    CallEvent.searchCall (priceSearchQuery message location) 5 true ∈
      (fusionCore o store message location conversationId now kr).trace ∧
    (fusionCore o store message location conversationId now kr).trace.any isPalayCall =
      containsAny psaTriggerKeywords (lowerStr message) := by
  have htrace : (fusionCore o store message location conversationId now kr).trace =
      (webBlock o message location (lowerStr message)).calls ++
      (psaBlock o (lowerStr message) location).calls ++
      (weatherBlock o (lowerStr message) location).calls := rfl
  constructor
  · rw [htrace]
    refine List.mem_append_left _ (List.mem_append_left _ ?_)
    unfold webBlock
    simp only [hp, Bool.true_or, if_true]
    cases hres : o.searchFn (priceSearchQuery message location) 5 true with
    | ok r =>
        by_cases he : r.organicResults.isEmpty <;> simp [hres, he]
    | error e => simp [hres]
  · rw [htrace]
    simp only [List.any_append, webBlock_no_palay, weatherBlock_no_palay,
      psaBlock_palay_iff, Bool.false_or, Bool.or_false]

/-- Witness for C9 (amended) at a concrete price query containing a PSA
trigger keyword. -/
theorem price_query_forces_search_witness :
    CallEvent.searchCall (priceSearchQuery "price of rice" none) 5 true ∈
      (fusionCore allHitOracles [] "price of rice" none none "T" ("KB", [])).trace ∧
    (fusionCore allHitOracles [] "price of rice" none none "T" ("KB", [])).trace.any
      isPalayCall = containsAny psaTriggerKeywords (lowerStr "price of rice") :=
  price_query_forces_search allHitOracles [] "price of rice" none none "T" ("KB", [])
    (by decide)

/-- C9 counterexample: "How much does corn cost in Benguet" is classified as a
price query (keyword "cost"), fusion performs the forced web search, yet the
Price Resolver is never invoked, because no PSA trigger keyword occurs. -/
theorem price_query_skips_palay_counterexample :
    containsAny priceKeywords (lowerStr "How much does corn cost in Benguet") = true ∧
    CallEvent.searchCall (priceSearchQuery "How much does corn cost in Benguet" none) 5 true ∈
      (fusionCore allHitOracles [] "How much does corn cost in Benguet" none none "T"
        ("KB", [])).trace ∧
    (fusionCore allHitOracles [] "How much does corn cost in Benguet" none none "T"
      ("KB", [])).trace.any isPalayCall = false := by
  refine ⟨by decide, by decide, by decide⟩

end AgriAid
